import Mathlib

/-!
Verification development for the lionel-mth-bridge repository.

The definitions below are a shallow embedding of the C/C++ sources:
  * `src/speck_functions.h` / `src/speck_functions.cpp` — the Speck-style
    block cipher (16-bit words modelled as `Nat` with explicit `% 65536`);
  * `src/mcu_mth_handler.ino` — the command dispatcher
    (`executeMTHCommand`), the transport (`sendMTHCommand`) and the
    connection-maintenance step (`maintainWTIUConnection`).
-/

namespace LionelMTH

/-! ## Cipher engine, from src/speck_functions.h and src/speck_functions.cpp

`SPECK_TYPE` is `uint16_t`; every assignment back into a `SPECK_TYPE`
truncates modulo 2^16, which the embedding makes explicit with `% 65536`.
-/

/-- `ROR(x, r)` from speck_functions.h line 21: `(x >> r) | (x << (16 - r))`,
truncated to 16 bits on assignment. -/
def ror16 (x r : Nat) : Nat := ((x >>> r) ||| (x <<< (16 - r))) % 65536

/-- `ROL(x, r)` from speck_functions.h line 22: `(x << r) | (x >> (16 - r))`,
truncated to 16 bits on assignment. -/
def rol16 (x r : Nat) : Nat := ((x <<< r) ||| (x >>> (16 - r))) % 65536

/-- The comma expression `RRR(x, y, k)` from speck_functions.h line 23:
`x = ROR(x, 7), x += y, x ^= k, y = ROL(y, 2), y ^= x`.
Returns the updated pair `(x, y)`. -/
def RRR (x y k : Nat) : Nat × Nat :=
  let x1 := ror16 x 7
  let x2 := (x1 + y) % 65536
  let x3 := x2 ^^^ k
  let y1 := rol16 y 2
  let y2 := y1 ^^^ x3
  (x3, y2)

/-- The 4-word master key `K[SPECK_KEY_LEN]` (`SPECK_KEY_LEN = 4`). -/
structure KeyWords where
  k0 : Nat
  k1 : Nat
  k2 : Nat
  k3 : Nat
deriving DecidableEq

/-- Loop state of `speck_expand`: accumulator `b` and the 3-element
working array `a[SPECK_KEY_LEN - 1]`. -/
structure ExpandState where
  b : Nat
  a0 : Nat
  a1 : Nat
  a2 : Nat
deriving DecidableEq

/-- One iteration of the `speck_expand` loop body after emitting `S[i]`:
`RRR(b, a[i % (SPECK_KEY_LEN - 1)], i)` (speck_functions.cpp line 25),
i.e. the macro is invoked with `x := b` and `y := a[i % 3]`. -/
def expandStep (i : Nat) (s : ExpandState) : ExpandState :=
  match i % 3 with
  | 0 => let p := RRR s.b s.a0 i; { s with b := p.1, a0 := p.2 }
  | 1 => let p := RRR s.b s.a1 i; { s with b := p.1, a1 := p.2 }
  | _ => let p := RRR s.b s.a2 i; { s with b := p.1, a2 := p.2 }

/-- The `for (i = 0; i < SPECK_ROUNDS; i++) { S[i] = b; RRR(...); }` loop of
`speck_expand`, producing the emitted schedule words in order. -/
def expandGo (s : ExpandState) (i fuel : Nat) : List Nat :=
  match fuel with
  | 0 => []
  | f + 1 => s.b :: expandGo (expandStep i s) (i + 1) f

/-- `speck_expand` from speck_functions.cpp lines 15–27: `b = K[0]`,
`a[j] = K[j+1]` for `j < 3`, then 22 rounds of emit-then-`RRR`. -/
def speck_expand (K : KeyWords) : List Nat :=
  expandGo ⟨K.k0, K.k1, K.k2, K.k3⟩ 0 22

/-- One round of `speck_encrypt` (speck_functions.cpp lines 34–40) applied
to the state `(ct0, ct1)` with round key `k`:
`ct[1] = ROL(ct[1], 2); ct[1] += ct[0]; ct[1] ^= K[i];
 ct[0] = ROR(ct[0], 7); ct[0] ^= ct[1];`. -/
def encRound (c : Nat × Nat) (k : Nat) : Nat × Nat :=
  let c1a := rol16 c.2 2
  let c1b := (c1a + c.1) % 65536
  let c1c := c1b ^^^ k
  let c0a := ror16 c.1 7
  let c0b := c0a ^^^ c1c
  (c0b, c1c)

/-- `speck_encrypt` from speck_functions.cpp lines 29–41: copy the
plaintext into `ct` and run 22 rounds, consuming `K[0], …, K[21]` in order. -/
def speck_encrypt (pt : Nat × Nat) (S : List Nat) : Nat × Nat :=
  S.foldl encRound pt

/-- The fixed key from mcu_mth_handler.ino line 68:
`SPECK_TYPE key[4] = {0x0100, 0x0302, 0x0504, 0x0706}`. -/
def defaultKey : KeyWords := ⟨0x0100, 0x0302, 0x0504, 0x0706⟩

/-! ### Reference model of the published Speck32/64 construction

Modelled from the spec: the spec asserts the engine is "equivalent to the
published \"Speck32/64\" construction" and demands the published reference
test vector be reproduced.  The definitions below follow the published
cipher (the reference implementation the repository credits), in the same
array convention (`pt[1]` is the upper word `x`, `pt[0]` the lower word
`y`; the key-schedule macro is invoked as `R(a[i % 3], b, i)` and the
encryption round as `R(ct[1], ct[0], K[i])` with
`R(x, y, k) : x = ROR(x, 7), x += y, x ^= k, y = ROL(y, 2), y ^= x`).
They are validated against the published test vector
key `{0x0100, 0x0908, 0x1110, 0x1918}`, pt `{0x694c, 0x6574}`,
ct `{0x42f2, 0xa868}` in theorem `speckRef_published_vector`. -/
def refExpandStep (i : Nat) (s : ExpandState) : ExpandState :=
  match i % 3 with
  | 0 => let p := RRR s.a0 s.b i; { s with a0 := p.1, b := p.2 }
  | 1 => let p := RRR s.a1 s.b i; { s with a1 := p.1, b := p.2 }
  | _ => let p := RRR s.a2 s.b i; { s with a2 := p.1, b := p.2 }

/-- Modelled from the spec: key schedule of the published Speck32/64. -/
def refExpandGo (s : ExpandState) (i fuel : Nat) : List Nat :=
  match fuel with
  | 0 => []
  | f + 1 => s.b :: refExpandGo (refExpandStep i s) (i + 1) f

/-- Modelled from the spec: `expand` of the published Speck32/64. -/
def speckRef_expand (K : KeyWords) : List Nat :=
  refExpandGo ⟨K.k0, K.k1, K.k2, K.k3⟩ 0 22

/-- Modelled from the spec: one encryption round of the published
Speck32/64, `R(ct[1], ct[0], k)`. -/
def refEncRound (c : Nat × Nat) (k : Nat) : Nat × Nat :=
  let p := RRR c.2 c.1 k
  (p.2, p.1)

/-- Modelled from the spec: block encryption of the published Speck32/64. -/
def speckRef_encrypt (pt : Nat × Nat) (S : List Nat) : Nat × Nat :=
  S.foldl refEncRound pt

/-- The reference model reproduces the published Speck32/64 test vector
(key `1918 1110 0908 0100`, plaintext `6574 694c`, ciphertext `a868 42f2`,
stored in the reference implementation's little-word-first arrays). -/
theorem speckRef_published_vector :
    speckRef_encrypt (0x694c, 0x6574)
      (speckRef_expand ⟨0x0100, 0x0908, 0x1110, 0x1918⟩) = (0x42f2, 0xa868) := by
  decide

/-! ### The key-schedule step as claim C3 words it

Claim C3 describes the round-`i` update as: the accumulator is rotated
right by 7 bits and the cyclically selected key-material word is added
into it; the round index `i` is XORed into the key-material word, and the
key-material word is rotated left by 2 bits.  (No XOR of `i` into the
accumulator, and no XOR of the accumulator into the key-material word.)
The accumulator update below already disagrees with the code regardless
of how the two key-word operations are ordered, because the code XORs `i`
into the accumulator. -/
def claimStep (i : Nat) (s : ExpandState) : ExpandState :=
  match i % 3 with
  | 0 => { s with b := (ror16 s.b 7 + s.a0) % 65536, a0 := rol16 (s.a0 ^^^ i) 2 }
  | 1 => { s with b := (ror16 s.b 7 + s.a1) % 65536, a1 := rol16 (s.a1 ^^^ i) 2 }
  | _ => { s with b := (ror16 s.b 7 + s.a2) % 65536, a2 := rol16 (s.a2 ^^^ i) 2 }

/-- The 22-round emit-then-update loop built from `claimStep`. -/
def claimExpandGo (s : ExpandState) (i fuel : Nat) : List Nat :=
  match fuel with
  | 0 => []
  | f + 1 => s.b :: claimExpandGo (claimStep i s) (i + 1) f

/-- Key expansion exactly as claim C3 describes it. -/
def claimExpand (K : KeyWords) : List Nat :=
  claimExpandGo ⟨K.k0, K.k1, K.k2, K.k3⟩ 0 22

/-! ### The key-schedule step as the code actually performs it

Written out in plain formulas (no macro): at round `i` the accumulator
becomes `((b >>>r 7) + a[i % 3] mod 2^16) XOR i` — the round index is
XORed into the *accumulator* — and the key-material word becomes
`(a[i % 3] <<<r 2) XOR b_new`, i.e. it is rotated left by 2 bits and then
XORed with the already-updated accumulator. -/
def amendedStep (i : Nat) (s : ExpandState) : ExpandState :=
  match i % 3 with
  | 0 =>
    let bn := ((ror16 s.b 7 + s.a0) % 65536) ^^^ i
    { s with b := bn, a0 := rol16 s.a0 2 ^^^ bn }
  | 1 =>
    let bn := ((ror16 s.b 7 + s.a1) % 65536) ^^^ i
    { s with b := bn, a1 := rol16 s.a1 2 ^^^ bn }
  | _ =>
    let bn := ((ror16 s.b 7 + s.a2) % 65536) ^^^ i
    { s with b := bn, a2 := rol16 s.a2 2 ^^^ bn }

/-- The 22-round emit-then-update loop built from `amendedStep`. -/
def amendedExpandGo (s : ExpandState) (i fuel : Nat) : List Nat :=
  match fuel with
  | 0 => []
  | f + 1 => s.b :: amendedExpandGo (amendedStep i s) (i + 1) f

/-- Key expansion per the amended description of claim C3. -/
def amendedExpand (K : KeyWords) : List Nat :=
  amendedExpandGo ⟨K.k0, K.k1, K.k2, K.k3⟩ 0 22

theorem expandStep_eq_amendedStep (i : Nat) (s : ExpandState) :
    expandStep i s = amendedStep i s := by
  have h : i % 3 = 0 ∨ i % 3 = 1 ∨ i % 3 = 2 := by omega
  rcases h with h | h | h <;> simp [expandStep, amendedStep, RRR, h]

theorem expandGo_eq_amendedExpandGo (fuel : Nat) :
    ∀ s i, expandGo s i fuel = amendedExpandGo s i fuel := by
  induction fuel with
  | zero => intro s i; rfl
  | succ f ih =>
    intro s i
    simp [expandGo, amendedExpandGo, expandStep_eq_amendedStep, ih]

/-! ### Injectivity of the key schedule (used for C9)

The first four emitted schedule words determine the key: `S[0] = K[0]`
and, for `j = 1, 2, 3`, `S[j] = ((ROR(S[j-1], 7) + K[j]) mod 2^16) XOR (j-1)`
because at round `j - 1` the working word `a[(j-1) % 3]` still holds its
initial value `K[j]`. -/

def expandInit (K : KeyWords) : ExpandState := ⟨K.k0, K.k1, K.k2, K.k3⟩

def expSt1 (K : KeyWords) : ExpandState := expandStep 0 (expandInit K)
def expSt2 (K : KeyWords) : ExpandState := expandStep 1 (expSt1 K)
def expSt3 (K : KeyWords) : ExpandState := expandStep 2 (expSt2 K)

theorem speck_expand_head (K : KeyWords) :
    speck_expand K = K.k0 :: (expSt1 K).b :: (expSt2 K).b :: (expSt3 K).b ::
      expandGo (expandStep 3 (expSt3 K)) 4 18 := rfl

theorem expSt1_b (K : KeyWords) :
    (expSt1 K).b = ((ror16 K.k0 7 + K.k1) % 65536) ^^^ 0 := rfl

theorem expSt2_b (K : KeyWords) :
    (expSt2 K).b = ((ror16 (expSt1 K).b 7 + K.k2) % 65536) ^^^ 1 := rfl

theorem expSt3_b (K : KeyWords) :
    (expSt3 K).b = ((ror16 (expSt2 K).b 7 + K.k3) % 65536) ^^^ 2 := rfl

/-- A key is valid when all four words fit in 16 bits (`SPECK_TYPE`). -/
def validKey (K : KeyWords) : Prop :=
  K.k0 < 65536 ∧ K.k1 < 65536 ∧ K.k2 < 65536 ∧ K.k3 < 65536

instance (K : KeyWords) : Decidable (validKey K) := by
  unfold validKey; infer_instance

theorem add_mod_cancel_right16 (r x y : Nat) (hx : x < 65536) (hy : y < 65536)
    (h : (r + x) % 65536 = (r + y) % 65536) : x = y := by omega

theorem xor_right_cancel_nat (k x y : Nat) (h : x ^^^ k = y ^^^ k) : x = y := by
  have h2 := congrArg (fun t => t ^^^ k) h
  simpa [Nat.xor_assoc] using h2

theorem speck_expand_injOn (K K' : KeyWords) (hK : validKey K) (hK' : validKey K')
    (h : speck_expand K = speck_expand K') : K = K' := by
  rw [speck_expand_head, speck_expand_head] at h
  injection h with h0 h
  injection h with hb1 h
  injection h with hb2 h
  injection h with hb3 h
  have e1 : K.k1 = K'.k1 := by
    have t := hb1
    rw [expSt1_b, expSt1_b, h0] at t
    exact add_mod_cancel_right16 _ _ _ hK.2.1 hK'.2.1
      (xor_right_cancel_nat 0 _ _ t)
  have e2 : K.k2 = K'.k2 := by
    have t := hb2
    rw [expSt2_b, expSt2_b, hb1] at t
    exact add_mod_cancel_right16 _ _ _ hK.2.2.1 hK'.2.2.1
      (xor_right_cancel_nat 1 _ _ t)
  have e3 : K.k3 = K'.k3 := by
    have t := hb3
    rw [expSt3_b, expSt3_b, hb2] at t
    exact add_mod_cancel_right16 _ _ _ hK.2.2.2 hK'.2.2.2
      (xor_right_cancel_nat 2 _ _ t)
  cases K; cases K'
  simp_all

/-- Flip bit `bit` of word `j` of the key (`j` interpreted mod nothing:
`0 ↦ k0`, `1 ↦ k1`, `2 ↦ k2`, anything else `↦ k3`). -/
def flipKey (K : KeyWords) (j bit : Nat) : KeyWords :=
  match j with
  | 0 => { K with k0 := K.k0 ^^^ 2 ^ bit }
  | 1 => { K with k1 := K.k1 ^^^ 2 ^ bit }
  | 2 => { K with k2 := K.k2 ^^^ 2 ^ bit }
  | _ => { K with k3 := K.k3 ^^^ 2 ^ bit }

theorem expandGo_length (fuel : Nat) : ∀ s i, (expandGo s i fuel).length = fuel := by
  induction fuel with
  | zero => intro s i; rfl
  | succ f ih => intro s i; simp [expandGo, ih]

theorem xor_pow_ne (x bit : Nat) : x ^^^ 2 ^ bit ≠ x := by
  intro h
  have h2 : x ^^^ (x ^^^ 2 ^ bit) = x ^^^ x := by rw [h]
  rw [← Nat.xor_assoc, Nat.xor_self, Nat.zero_xor] at h2
  have h3 : 0 < 2 ^ bit := Nat.pos_pow_of_pos bit (by norm_num)
  omega

/-- Words of a valid key are 16-bit, so are the words of a bit-flipped key. -/
theorem xor_lt_65536 (x y : Nat) (hx : x < 65536) (hy : y < 65536) :
    x ^^^ y < 65536 := by
  have hx' : x < 2 ^ 16 := by norm_num at *; omega
  have hy' : y < 2 ^ 16 := by norm_num at *; omega
  have h : Nat.bitwise bne x y < 2 ^ 16 := Nat.bitwise_lt hx' hy'
  have he : x ^^^ y = Nat.bitwise bne x y := rfl
  rw [he]
  omega

/-! ## Command dispatcher, from src/mcu_mth_handler.ino

Discriminants (lines 29–36): `CMD_SPEED = 1`, `CMD_DIRECTION = 2`,
`CMD_BELL = 3`, `CMD_WHISTLE = 4`, `CMD_STARTUP = 5`, `CMD_SHUTDOWN = 6`,
`CMD_ENGINE_SELECT = 7`, `CMD_PROTOWHISTLE = 8`.  The sketch also
dispatches on `CMD_WLED` (line 363), which is *used but never defined
anywhere in the repository*; the embedding therefore takes its value as a
parameter `cmdWLED`.  For the C `switch` to be well-formed its case
labels must be pairwise distinct, captured by `wledFree` below. -/

/-- `struct CommandPacket` (lines 39–44).  `command_type` and
`engine_number` are `uint8_t`, `value` is `uint16_t`, `bool_value` is
`bool`; the numeric fields are modelled as `Nat`. -/
structure CommandPacket where
  command_type : Nat
  engine_number : Nat
  value : Nat
  bool_value : Bool
deriving DecidableEq

/-- The dispatcher's mutable session state: `protowhistle_enabled`
(line 64) and `protowhistle_pitch` (line 65). -/
structure DispatchState where
  protowhistle_enabled : Bool
  protowhistle_pitch : Nat
deriving DecidableEq

/-- Decimal rendering used by `snprintf("…%d", n)`. -/
def mthDigits (n : Nat) : List Char := Nat.toDigits 10 n

/-- `CMD_WLED` must differ from the eight `#define`d discriminants,
otherwise the C `switch` would not compile (duplicate case labels). -/
def wledFree (w : Nat) : Prop :=
  w ≠ 1 ∧ w ≠ 2 ∧ w ≠ 3 ∧ w ≠ 4 ∧ w ≠ 5 ∧ w ≠ 6 ∧ w ≠ 7 ∧ w ≠ 8

instance (w : Nat) : Decidable (wledFree w) := by
  unfold wledFree; infer_instance

/-- Result of the `switch` statement of `executeMTHCommand`
(lines 267–392): the command strings handed to `sendMTHCommand` in call
order, the session state after the branch, and the `command_sent` flag. -/
structure SwitchResult where
  strings : List (List Char)
  state : DispatchState
  command_sent : Bool
deriving DecidableEq

/-- The `switch (cmd->command_type)` of `executeMTHCommand`, branch by
branch in source order (`CMD_ENGINE_SELECT`, `CMD_SPEED`,
`CMD_DIRECTION`, `CMD_BELL`, `CMD_WHISTLE`, `CMD_PROTOWHISTLE`,
`CMD_WLED`, `CMD_STARTUP`, `CMD_SHUTDOWN`, `default`). -/
def dispatchSwitch (cmdWLED : Nat) (st : DispatchState) (cmd : CommandPacket) :
    SwitchResult :=
  if cmd.command_type = 7 then
    ⟨['y' :: mthDigits cmd.engine_number], st, true⟩
  else if cmd.command_type = 1 then
    ⟨['s' :: mthDigits cmd.value], st, true⟩
  else if cmd.command_type = 2 then
    ⟨[if cmd.bool_value then "d1".data else "d0".data], st, true⟩
  else if cmd.command_type = 3 then
    ⟨[if cmd.bool_value then "w4".data else "bFFFB".data], st, true⟩
  else if cmd.command_type = 4 then
    if ¬ st.protowhistle_enabled then
      ⟨[if cmd.bool_value then "w2".data else "bFFFD".data], st, true⟩
    else
      ⟨[], st, false⟩
  else if cmd.command_type = 8 then
    if cmd.value = 0 then
      if cmd.bool_value then
        ⟨["ab20".data], { st with protowhistle_enabled := true }, true⟩
      else
        ⟨["ab21".data], { st with protowhistle_enabled := false }, true⟩
    else if cmd.value = 1 then
      if st.protowhistle_enabled then
        ⟨[if cmd.bool_value then "w2".data else "bFFFD".data], st, true⟩
      else
        ⟨[], st, false⟩
    else if cmd.value = 2 then
      if cmd.bool_value then
        ⟨["ab20".data], { st with protowhistle_enabled := cmd.bool_value }, true⟩
      else
        ⟨["ab21".data], { st with protowhistle_enabled := cmd.bool_value }, true⟩
    else if 10 ≤ cmd.value ∧ cmd.value ≤ 13 then
      ⟨['a' :: 'b' :: mthDigits (cmd.value - 10 + 26)],
        { st with protowhistle_pitch := cmd.value - 10 }, true⟩
    else
      ⟨[], st, false⟩
  else if cmd.command_type = cmdWLED then
    if cmd.bool_value then
      ⟨['w' :: mthDigits cmd.engine_number], st, true⟩
    else
      ⟨[], st, true⟩
  else if cmd.command_type = 5 then
    ⟨["u4".data], st, true⟩
  else if cmd.command_type = 6 then
    ⟨["u5".data], st, true⟩
  else
    ⟨[], st, false⟩

/-- Observable outcome of one `executeMTHCommand` call: the strings
handed to `sendMTHCommand`, the subset actually written to the network
(`sendMTHCommand` drops every string while the connection is down, lines
412–416), the session state after the call, and the acknowledgment
record written back to the MPU (lines 395–401; written exactly once,
unconditionally). -/
structure DispatchResult where
  strings : List (List Char)
  accepted : List (List Char)
  state : DispatchState
  response : CommandPacket
deriving DecidableEq

/-- `executeMTHCommand` (lines 253–409).  `connected` models
`wtiu_connected && wtiu_client.connected()`, which is fixed for the
duration of the call (single-threaded loop).  The response mirrors
`command_type`, `engine_number` and `bool_value` of the input and stores
`command_sent ? 1 : 0` in `value` (lines 396–399). -/
def executeMTHCommand (cmdWLED : Nat) (connected : Bool) (st : DispatchState)
    (cmd : CommandPacket) : DispatchResult :=
  { strings := (dispatchSwitch cmdWLED st cmd).strings
    accepted := if connected then (dispatchSwitch cmdWLED st cmd).strings else []
    state := (dispatchSwitch cmdWLED st cmd).state
    response :=
      { command_type := cmd.command_type
        engine_number := cmd.engine_number
        value := if (dispatchSwitch cmdWLED st cmd).command_sent then 1 else 0
        bool_value := cmd.bool_value } }

/-! ## Transport, from sendMTHCommand (lines 411–458) -/

/-- The padding of `sendMTHCommand` (lines 423–429): `malloc` a buffer of
`((cmd_len + 3) / 4) * 4` bytes, `memset` it to zero, `memcpy` the
string into its front.  The resulting buffer contents are the string
followed by zero bytes. -/
def padCmd (cmd : List Nat) : List Nat :=
  cmd ++ List.replicate ((cmd.length + 3) / 4 * 4 - cmd.length) 0

/-- The encryption loop of `sendMTHCommand` (lines 432–444): consume the
padded buffer in 4-byte chunks, load each chunk big-endian into two
16-bit words, encrypt with the round keys, and emit the ciphertext words
big-endian. -/
def encryptChunks (S : List Nat) : List Nat → List Nat
  | b0 :: b1 :: b2 :: b3 :: rest =>
    let ct := speck_encrypt ((b0 <<< 8) ||| b1, (b2 <<< 8) ||| b3) S
    (ct.1 >>> 8) :: (ct.1 &&& 255) :: (ct.2 >>> 8) :: (ct.2 &&& 255) ::
      encryptChunks S rest
  | _ => []

/-- `sendMTHCommand` (lines 411–458), as the list of bytes written to
`wtiu_client`.  If the connection is down the function returns early
having written nothing (lines 412–416); it keeps no buffer and returns
no status (its C return type is `void`).  Otherwise it writes either the
encrypted padded command or the plain command followed by CR LF. -/
def sendMTHCommand (connected encryption : Bool) (S : List Nat) (cmd : List Nat) :
    List Nat :=
  if ¬ connected then []
  else if encryption then encryptChunks S (padCmd cmd)
  else cmd ++ [13, 10]

/-! ## Connection maintenance, from maintainWTIUConnection (lines 216–236) -/

/-- Connection-manager state: `wtiu_connected` (line 59) and
`last_connection_attempt` (line 60). -/
structure ConnState where
  wtiu_connected : Bool
  last_connection_attempt : Nat
deriving DecidableEq

/-- `current_time - last_connection_attempt` on a 32-bit
`unsigned long`, for timestamps below `2^32`. -/
def elapsed32 (now last : Nat) : Nat :=
  (now + 4294967296 - last) % 4294967296

/-- One call of `maintainWTIUConnection` (lines 216–236).
`clientConnected` models `wtiu_client.connected()`, `discoverySucceeds`
the outcome of `discoverWTIU()` (which on success leaves
`wtiu_connected = true` via `connectToWTIU`, lines 200–213), and `now`
the value of `millis()`.  Returns the new state and whether a discovery
attempt was made.  `CONNECTION_RETRY_INTERVAL = 5000` (line 61). -/
def maintainWTIUConnection (clientConnected discoverySucceeds : Bool) (now : Nat)
    (st : ConnState) : ConnState × Bool :=
  if ¬ (st.wtiu_connected && clientConnected) then
    if 5000 ≤ elapsed32 now st.last_connection_attempt then
      ({ wtiu_connected := discoverySucceeds, last_connection_attempt := now }, true)
    else
      ({ st with wtiu_connected := false }, false)
  else
    (st, false)

/-! ### Branch equations for the dispatcher

One equation per `switch` branch, used to reason about
`executeMTHCommand` case by case. -/

theorem executeMTHCommand_strings (w : Nat) (c : Bool) (st : DispatchState)
    (cmd : CommandPacket) :
    (executeMTHCommand w c st cmd).strings = (dispatchSwitch w st cmd).strings := rfl

theorem executeMTHCommand_value (w : Nat) (c : Bool) (st : DispatchState)
    (cmd : CommandPacket) :
    (executeMTHCommand w c st cmd).response.value =
      if (dispatchSwitch w st cmd).command_sent then 1 else 0 := rfl

theorem executeMTHCommand_state (w : Nat) (c : Bool) (st : DispatchState)
    (cmd : CommandPacket) :
    (executeMTHCommand w c st cmd).state = (dispatchSwitch w st cmd).state := rfl

theorem ds7 (w : Nat) (st : DispatchState) (cmd : CommandPacket)
    (h : cmd.command_type = 7) :
    dispatchSwitch w st cmd = ⟨['y' :: mthDigits cmd.engine_number], st, true⟩ := by
  simp [dispatchSwitch, h]

theorem ds1 (w : Nat) (st : DispatchState) (cmd : CommandPacket)
    (h : cmd.command_type = 1) :
    dispatchSwitch w st cmd = ⟨['s' :: mthDigits cmd.value], st, true⟩ := by
  simp [dispatchSwitch, h]

theorem ds2 (w : Nat) (st : DispatchState) (cmd : CommandPacket)
    (h : cmd.command_type = 2) :
    dispatchSwitch w st cmd =
      ⟨[if cmd.bool_value then "d1".data else "d0".data], st, true⟩ := by
  simp [dispatchSwitch, h]

theorem ds3 (w : Nat) (st : DispatchState) (cmd : CommandPacket)
    (h : cmd.command_type = 3) :
    dispatchSwitch w st cmd =
      ⟨[if cmd.bool_value then "w4".data else "bFFFB".data], st, true⟩ := by
  simp [dispatchSwitch, h]

theorem ds4off (w : Nat) (st : DispatchState) (cmd : CommandPacket)
    (h : cmd.command_type = 4) (hp : st.protowhistle_enabled = false) :
    dispatchSwitch w st cmd =
      ⟨[if cmd.bool_value then "w2".data else "bFFFD".data], st, true⟩ := by
  simp [dispatchSwitch, h, hp]

theorem ds4on (w : Nat) (st : DispatchState) (cmd : CommandPacket)
    (h : cmd.command_type = 4) (hp : st.protowhistle_enabled = true) :
    dispatchSwitch w st cmd = ⟨[], st, false⟩ := by
  simp [dispatchSwitch, h, hp]

theorem ds8v0 (w : Nat) (st : DispatchState) (cmd : CommandPacket)
    (h : cmd.command_type = 8) (hv : cmd.value = 0) :
    dispatchSwitch w st cmd =
      if cmd.bool_value then
        ⟨["ab20".data], { st with protowhistle_enabled := true }, true⟩
      else
        ⟨["ab21".data], { st with protowhistle_enabled := false }, true⟩ := by
  simp [dispatchSwitch, h, hv]

theorem ds8v1on (w : Nat) (st : DispatchState) (cmd : CommandPacket)
    (h : cmd.command_type = 8) (hv : cmd.value = 1)
    (hp : st.protowhistle_enabled = true) :
    dispatchSwitch w st cmd =
      ⟨[if cmd.bool_value then "w2".data else "bFFFD".data], st, true⟩ := by
  simp [dispatchSwitch, h, hv, hp]

theorem ds8v1off (w : Nat) (st : DispatchState) (cmd : CommandPacket)
    (h : cmd.command_type = 8) (hv : cmd.value = 1)
    (hp : st.protowhistle_enabled = false) :
    dispatchSwitch w st cmd = ⟨[], st, false⟩ := by
  simp [dispatchSwitch, h, hv, hp]

theorem ds8v2 (w : Nat) (st : DispatchState) (cmd : CommandPacket)
    (h : cmd.command_type = 8) (hv0 : cmd.value ≠ 0) (hv : cmd.value = 2) :
    dispatchSwitch w st cmd =
      if cmd.bool_value then
        ⟨["ab20".data], { st with protowhistle_enabled := cmd.bool_value }, true⟩
      else
        ⟨["ab21".data], { st with protowhistle_enabled := cmd.bool_value }, true⟩ := by
  unfold dispatchSwitch
  rw [if_neg (show ¬ cmd.command_type = 7 by omega),
    if_neg (show ¬ cmd.command_type = 1 by omega),
    if_neg (show ¬ cmd.command_type = 2 by omega),
    if_neg (show ¬ cmd.command_type = 3 by omega),
    if_neg (show ¬ cmd.command_type = 4 by omega),
    if_pos h, if_neg hv0, if_neg (show ¬ cmd.value = 1 by omega), if_pos hv]

theorem ds8pitch (w : Nat) (st : DispatchState) (cmd : CommandPacket)
    (h : cmd.command_type = 8) (hv0 : cmd.value ≠ 0) (hv1 : cmd.value ≠ 1)
    (hv2 : cmd.value ≠ 2) (hr : 10 ≤ cmd.value ∧ cmd.value ≤ 13) :
    dispatchSwitch w st cmd =
      ⟨['a' :: 'b' :: mthDigits (cmd.value - 10 + 26)],
        { st with protowhistle_pitch := cmd.value - 10 }, true⟩ := by
  simp [dispatchSwitch, h, hv0, hv1, hv2, hr]

theorem ds8other (w : Nat) (st : DispatchState) (cmd : CommandPacket)
    (h : cmd.command_type = 8) (hv0 : cmd.value ≠ 0) (hv1 : cmd.value ≠ 1)
    (hv2 : cmd.value ≠ 2) (hr : ¬ (10 ≤ cmd.value ∧ cmd.value ≤ 13)) :
    dispatchSwitch w st cmd = ⟨[], st, false⟩ := by
  simp [dispatchSwitch, h, hv0, hv1, hv2, hr]

theorem dsWLED (w : Nat) (st : DispatchState) (cmd : CommandPacket)
    (h7 : cmd.command_type ≠ 7) (h1 : cmd.command_type ≠ 1)
    (h2 : cmd.command_type ≠ 2) (h3 : cmd.command_type ≠ 3)
    (h4 : cmd.command_type ≠ 4) (h8 : cmd.command_type ≠ 8)
    (hw : cmd.command_type = w) :
    dispatchSwitch w st cmd =
      if cmd.bool_value then ⟨['w' :: mthDigits cmd.engine_number], st, true⟩
      else ⟨[], st, true⟩ := by
  unfold dispatchSwitch
  rw [if_neg h7, if_neg h1, if_neg h2, if_neg h3, if_neg h4, if_neg h8, if_pos hw]

theorem ds5 (w : Nat) (st : DispatchState) (cmd : CommandPacket)
    (h7 : cmd.command_type ≠ 7) (h1 : cmd.command_type ≠ 1)
    (h2 : cmd.command_type ≠ 2) (h3 : cmd.command_type ≠ 3)
    (h4 : cmd.command_type ≠ 4) (h8 : cmd.command_type ≠ 8)
    (hw : cmd.command_type ≠ w) (h5 : cmd.command_type = 5) :
    dispatchSwitch w st cmd = ⟨["u4".data], st, true⟩ := by
  unfold dispatchSwitch
  rw [if_neg h7, if_neg h1, if_neg h2, if_neg h3, if_neg h4, if_neg h8, if_neg hw,
    if_pos h5]

theorem ds6 (w : Nat) (st : DispatchState) (cmd : CommandPacket)
    (h7 : cmd.command_type ≠ 7) (h1 : cmd.command_type ≠ 1)
    (h2 : cmd.command_type ≠ 2) (h3 : cmd.command_type ≠ 3)
    (h4 : cmd.command_type ≠ 4) (h8 : cmd.command_type ≠ 8)
    (hw : cmd.command_type ≠ w) (h6 : cmd.command_type = 6) :
    dispatchSwitch w st cmd = ⟨["u5".data], st, true⟩ := by
  unfold dispatchSwitch
  rw [if_neg h7, if_neg h1, if_neg h2, if_neg h3, if_neg h4, if_neg h8, if_neg hw,
    if_neg (show ¬ cmd.command_type = 5 by omega), if_pos h6]

theorem dsDefault (w : Nat) (st : DispatchState) (cmd : CommandPacket)
    (h7 : cmd.command_type ≠ 7) (h1 : cmd.command_type ≠ 1)
    (h2 : cmd.command_type ≠ 2) (h3 : cmd.command_type ≠ 3)
    (h4 : cmd.command_type ≠ 4) (h8 : cmd.command_type ≠ 8)
    (hw : cmd.command_type ≠ w) (h5 : cmd.command_type ≠ 5)
    (h6 : cmd.command_type ≠ 6) :
    dispatchSwitch w st cmd = ⟨[], st, false⟩ := by
  simp [dispatchSwitch, h7, h1, h2, h3, h4, h8, hw, h5, h6]

/-! ## Claim theorems -/

/-- C1: for the fixed key `{0x0100, 0x0302, 0x0504, 0x0706}` and
plaintext `{0x6574, 0x694c}`, the code does **not** produce the
ciphertext of the published Speck32/64 construction (under either
assignment of the two array slots to the cipher's upper/lower word), and
its key schedule already differs from the published one.  The reference
model used for comparison is validated against the published test vector
in `speckRef_published_vector`.  The cause: `speck_expand` invokes the
round macro as `RRR(b, a[i % 3], i)` and `speck_encrypt` rotates `ct[1]`
left by 2 and `ct[0]` right by 7 — in the published cipher (and the
RTCRemote code the file credits) the two word roles are exactly
swapped. -/
theorem speck_default_key_vector_mismatch :
    speckRef_encrypt (0x694c, 0x6574)
      (speckRef_expand ⟨0x0100, 0x0908, 0x1110, 0x1918⟩) = (0x42f2, 0xa868) ∧
    speck_encrypt (0x6574, 0x694c) (speck_expand defaultKey) = (0x4d42, 0xe94b) ∧
    speckRef_encrypt (0x6574, 0x694c) (speckRef_expand defaultKey) = (0xc979, 0x081c) ∧
    speck_encrypt (0x694c, 0x6574) (speck_expand defaultKey) = (0xd996, 0xbbf0) ∧
    speckRef_encrypt (0x694c, 0x6574) (speckRef_expand defaultKey) = (0x7932, 0x4d0a) ∧
    speck_expand defaultKey ≠ speckRef_expand defaultKey := by
  decide

/-- C2 counterexample: while disconnected, a `CMD_SPEED` record produces
the single string `"s15"`, the transport drops it (nothing accepted),
yet the acknowledgment reports success (`value = 1`) — refuting "success
only if every produced string was accepted by the transport".  Moreover
(with `CMD_WLED` instantiated to 9) a WLED record with flag false
produces zero strings while connected and is still acknowledged as
success — refuting "a record that produces zero strings is acknowledged
as failure". -/
theorem ack_success_despite_dropped_string :
    (executeMTHCommand 9 false ⟨false, 0⟩ ⟨1, 5, 15, false⟩).response.value = 1 ∧
    (executeMTHCommand 9 false ⟨false, 0⟩ ⟨1, 5, 15, false⟩).strings =
      [['s', '1', '5']] ∧
    (executeMTHCommand 9 false ⟨false, 0⟩ ⟨1, 5, 15, false⟩).accepted = [] ∧
    (executeMTHCommand 9 true ⟨false, 0⟩ ⟨9, 3, 0, false⟩).strings = [] ∧
    (executeMTHCommand 9 true ⟨false, 0⟩ ⟨9, 3, 0, false⟩).response.value = 1 := by
  decide

/-- C2 (amended): the acknowledgment's success indicator is 1 iff the
record was handled by a recognized branch that set `command_sent` —
equivalently, iff at least one command string was produced or the record
is a `CMD_WLED` record with flag false (which produces no string but is
still marked sent).  Transport acceptance is never consulted: the result
is the same for any connection state. -/
theorem ack_success_iff_branch_handled (cmdWLED : Nat) (hW : wledFree cmdWLED)
    (connected : Bool) (st : DispatchState) (cmd : CommandPacket) :
    (executeMTHCommand cmdWLED connected st cmd).response.value = 1 ↔
      ((executeMTHCommand cmdWLED connected st cmd).strings ≠ [] ∨
        (cmd.command_type = cmdWLED ∧ cmd.bool_value = false)) := by
  obtain ⟨h1, h2, h3, h4, h5, h6, h7, h8⟩ := hW
  rw [executeMTHCommand_value, executeMTHCommand_strings]
  by_cases c7 : cmd.command_type = 7
  · rw [ds7 _ _ _ c7]; simp
  by_cases c1 : cmd.command_type = 1
  · rw [ds1 _ _ _ c1]; simp
  by_cases c2 : cmd.command_type = 2
  · rw [ds2 _ _ _ c2]; simp
  by_cases c3 : cmd.command_type = 3
  · rw [ds3 _ _ _ c3]; simp
  by_cases c4 : cmd.command_type = 4
  · cases hp : st.protowhistle_enabled
    · rw [ds4off _ _ _ c4 hp]; simp
    · rw [ds4on _ _ _ c4 hp]; simp [c4, Ne.symm h4]
  by_cases c8 : cmd.command_type = 8
  · by_cases cv0 : cmd.value = 0
    · rw [ds8v0 _ _ _ c8 cv0]
      cases hb : cmd.bool_value <;> simp
    by_cases cv1 : cmd.value = 1
    · cases hp : st.protowhistle_enabled
      · rw [ds8v1off _ _ _ c8 cv1 hp]; simp [c8, Ne.symm h8]
      · rw [ds8v1on _ _ _ c8 cv1 hp]; simp
    by_cases cv2 : cmd.value = 2
    · rw [ds8v2 _ _ _ c8 cv0 cv2]
      cases hb : cmd.bool_value <;> simp
    by_cases cr : 10 ≤ cmd.value ∧ cmd.value ≤ 13
    · rw [ds8pitch _ _ _ c8 cv0 cv1 cv2 cr]; simp
    · rw [ds8other _ _ _ c8 cv0 cv1 cv2 cr]; simp [c8, Ne.symm h8]
  by_cases cw : cmd.command_type = cmdWLED
  · rw [dsWLED _ _ _ c7 c1 c2 c3 c4 c8 cw]
    cases hb : cmd.bool_value <;> simp [cw, hb]
  by_cases c5 : cmd.command_type = 5
  · rw [ds5 _ _ _ c7 c1 c2 c3 c4 c8 cw c5]; simp
  by_cases c6 : cmd.command_type = 6
  · rw [ds6 _ _ _ c7 c1 c2 c3 c4 c8 cw c6]; simp
  rw [dsDefault _ _ _ c7 c1 c2 c3 c4 c8 cw c5 c6]
  simp [cw]

/-- Witness for `ack_success_iff_branch_handled` at a concrete input. -/
theorem ack_success_iff_branch_handled_witness :
    (executeMTHCommand 9 false ⟨false, 0⟩ ⟨6, 2, 0, true⟩).response.value = 1 ↔
      ((executeMTHCommand 9 false ⟨false, 0⟩ ⟨6, 2, 0, true⟩).strings ≠ [] ∨
        ((⟨6, 2, 0, true⟩ : CommandPacket).command_type = 9 ∧
          (⟨6, 2, 0, true⟩ : CommandPacket).bool_value = false)) :=
  ack_success_iff_branch_handled 9 (by decide) false ⟨false, 0⟩ ⟨6, 2, 0, true⟩

/-- C3 counterexample: the key expansion exactly as the claim words it
(round index XORed into the key-material word, no XOR into the
accumulator, no XOR of the accumulator back into the key word) computes
a different schedule than `speck_expand` already on the repository's own
fixed key. -/
theorem claimExpand_ne_speck_expand :
    claimExpand defaultKey ≠ speck_expand defaultKey := by
  decide

/-- C3 (amended): at each round `i` the current accumulator is emitted
as `schedule[i]`, then the accumulator becomes
`((accumulator >>>rot 7) + a[i mod 3] mod 2^16) XOR i` — the round index
is XORed into the *accumulator* — and `a[i mod 3]` becomes
`(a[i mod 3] <<<rot 2) XOR` the updated accumulator. -/
theorem speck_expand_eq_amendedExpand (K : KeyWords) :
    speck_expand K = amendedExpand K :=
  expandGo_eq_amendedExpandGo 22 ⟨K.k0, K.k1, K.k2, K.k3⟩ 0

/-- C4 counterexample: while disconnected the send writes nothing (bytes
`[117, 52]` are the string `"u4"`), but no failure reaches the caller:
the C function returns `void`, and the dispatcher acknowledges the
`CMD_STARTUP` record as success (`value = 1`) even though nothing was
accepted for transmission. -/
theorem send_disconnected_no_failure_report :
    sendMTHCommand false true (speck_expand defaultKey) [117, 52] = [] ∧
    (executeMTHCommand 9 false ⟨false, 0⟩ ⟨5, 1, 0, false⟩).accepted = [] ∧
    (executeMTHCommand 9 false ⟨false, 0⟩ ⟨5, 1, 0, false⟩).response.value = 1 := by
  decide

/-- C4 (amended): a send while not connected writes no bytes to the
network and buffers nothing (the embedding's entire observable effect is
the returned byte list), but it does *not* report failure to the caller:
the caller-visible acknowledgment of any dispatched record is identical
whether or not the connection is up. -/
theorem send_disconnected_noop (enc : Bool) (S cmd : List Nat) :
    sendMTHCommand false enc S cmd = [] ∧
    ∀ (w : Nat) (st : DispatchState) (p : CommandPacket),
      (executeMTHCommand w false st p).response =
        (executeMTHCommand w true st p).response :=
  ⟨by simp [sendMTHCommand], fun w st p => rfl⟩

/-- C5: a `CMD_WHISTLE` record yields zero strings when
`protowhistle_enabled` is set, and exactly one string — chosen by the
record's boolean flag — when it is clear. -/
theorem whistle_mutual_exclusion (cmdWLED : Nat) (connected : Bool)
    (st : DispatchState) (cmd : CommandPacket) (h : cmd.command_type = 4) :
    (executeMTHCommand cmdWLED connected st cmd).strings =
      if st.protowhistle_enabled then []
      else [if cmd.bool_value then "w2".data else "bFFFD".data] := by
  simp only [executeMTHCommand]
  unfold dispatchSwitch
  rw [h]
  cases hp : st.protowhistle_enabled <;> simp

/-- Witness for `whistle_mutual_exclusion` at a concrete input. -/
theorem whistle_mutual_exclusion_witness :
    (executeMTHCommand 9 true ⟨true, 0⟩ ⟨4, 1, 0, true⟩).strings =
      if (⟨true, 0⟩ : DispatchState).protowhistle_enabled then []
      else [if (⟨4, 1, 0, true⟩ : CommandPacket).bool_value then "w2".data
            else "bFFFD".data] :=
  whistle_mutual_exclusion 9 true ⟨true, 0⟩ ⟨4, 1, 0, true⟩ rfl

/-- C6: every dispatch writes exactly one acknowledgment record (the
embedding returns the single record written at line 401), and its
`command_type`, `engine_number` and `bool_value` mirror the input
record; only `value` depends on the outcome. -/
theorem dispatch_ack_mirror (cmdWLED : Nat) (connected : Bool)
    (st : DispatchState) (cmd : CommandPacket) :
    ∃ v, (executeMTHCommand cmdWLED connected st cmd).response =
      ⟨cmd.command_type, cmd.engine_number, v, cmd.bool_value⟩ :=
  ⟨_, rfl⟩

/-- C7: the buffer handed to the cipher is the command followed by zero
bytes, its length is a multiple of 4, at least the command length and
less than the command length plus 4 — i.e. the smallest multiple of 4
that is ≥ the command length.  The last conjunct ties `padCmd` to
`sendMTHCommand`: with encryption on and the connection up, exactly
`padCmd cmd` is what the cipher consumes. -/
theorem padCmd_law (cmd : List Nat) :
    (padCmd cmd).length % 4 = 0 ∧
    cmd.length ≤ (padCmd cmd).length ∧
    (padCmd cmd).length < cmd.length + 4 ∧
    padCmd cmd = cmd ++ List.replicate ((padCmd cmd).length - cmd.length) 0 ∧
    ∀ S : List Nat, sendMTHCommand true true S cmd = encryptChunks S (padCmd cmd) := by
  have hlen : (padCmd cmd).length = (cmd.length + 3) / 4 * 4 := by
    simp [padCmd]
    omega
  refine ⟨?_, ?_, ?_, ?_, ?_⟩
  · rw [hlen]; omega
  · rw [hlen]; omega
  · rw [hlen]; omega
  · rw [hlen]
    exact rfl
  · intro S
    simp [sendMTHCommand]

/-- A maintenance call that attempts discovery records its own timestamp
as the last attempt time (line 225). -/
theorem maintain_attempt_sets_last (c d : Bool) (t : Nat) (st : ConnState)
    (h : (maintainWTIUConnection c d t st).2 = true) :
    (maintainWTIUConnection c d t st).1.last_connection_attempt = t := by
  unfold maintainWTIUConnection at *
  split_ifs at h ⊢
  simp_all

/-- A maintenance call attempts discovery only once the retry interval
has elapsed since the recorded last attempt (line 223). -/
theorem maintain_attempt_needs_elapsed (c d : Bool) (t : Nat) (st : ConnState)
    (h : (maintainWTIUConnection c d t st).2 = true) :
    5000 ≤ elapsed32 t st.last_connection_attempt := by
  unfold maintainWTIUConnection at h
  split_ifs at h
  simp_all

/-- C8: two maintenance steps taken less than 5000 ms apart perform at
most one discovery attempt: if the first one attempts, the second —
running on the state the first left behind — cannot. -/
theorem retry_throttled (st : ConnState) (c1 d1 c2 d2 : Bool) (t1 t2 : Nat)
    (h12 : t1 ≤ t2) (hlt : t2 - t1 < 5000) :
    ¬ ((maintainWTIUConnection c1 d1 t1 st).2 = true ∧
       (maintainWTIUConnection c2 d2 t2 (maintainWTIUConnection c1 d1 t1 st).1).2
         = true) := by
  rintro ⟨a1, a2⟩
  have hl := maintain_attempt_sets_last c1 d1 t1 st a1
  have he := maintain_attempt_needs_elapsed c2 d2 t2 _ a2
  rw [hl] at he
  unfold elapsed32 at he
  omega

/-- Witness for `retry_throttled` at concrete inputs. -/
theorem retry_throttled_witness :
    ¬ ((maintainWTIUConnection false false 6000 ⟨false, 0⟩).2 = true ∧
       (maintainWTIUConnection false false 9000
         (maintainWTIUConnection false false 6000 ⟨false, 0⟩).1).2 = true) :=
  retry_throttled ⟨false, 0⟩ false false false false 6000 9000
    (by norm_num) (by norm_num)

/-- C9: flipping any single bit of any valid 4-word key changes the
22-word schedule — both schedules have 22 words and are unequal, so they
differ in at least one word (the schedule determines the key through its
first four words, `speck_expand_injOn`). -/
theorem speck_expand_bitflip (K : KeyWords) (hv : validKey K) (j bit : Nat)
    (hj : j < 4) (hbit : bit < 16) :
    (speck_expand (flipKey K j bit)).length = 22 ∧
    (speck_expand K).length = 22 ∧
    speck_expand (flipKey K j bit) ≠ speck_expand K := by
  refine ⟨expandGo_length 22 _ 0, expandGo_length 22 _ 0, ?_⟩
  intro h
  have hp : 2 ^ bit < 65536 := by
    have h2 : (2 : Nat) ^ bit < 2 ^ 16 :=
      Nat.pow_lt_pow_right (by norm_num) hbit
    omega
  have hv' : validKey (flipKey K j bit) := by
    obtain ⟨v0, v1, v2, v3⟩ := hv
    interval_cases j <;>
      exact ⟨by first | exact xor_lt_65536 _ _ v0 hp | exact v0,
             by first | exact xor_lt_65536 _ _ v1 hp | exact v1,
             by first | exact xor_lt_65536 _ _ v2 hp | exact v2,
             by first | exact xor_lt_65536 _ _ v3 hp | exact v3⟩
  have hK := speck_expand_injOn _ _ hv' hv h
  interval_cases j
  · exact xor_pow_ne K.k0 bit (congrArg KeyWords.k0 hK)
  · exact xor_pow_ne K.k1 bit (congrArg KeyWords.k1 hK)
  · exact xor_pow_ne K.k2 bit (congrArg KeyWords.k2 hK)
  · exact xor_pow_ne K.k3 bit (congrArg KeyWords.k3 hK)

/-- Witness for `speck_expand_bitflip` at a concrete input. -/
theorem speck_expand_bitflip_witness :
    (speck_expand (flipKey defaultKey 0 0)).length = 22 ∧
    (speck_expand defaultKey).length = 22 ∧
    speck_expand (flipKey defaultKey 0 0) ≠ speck_expand defaultKey :=
  speck_expand_bitflip defaultKey (by decide) 0 0 (by decide) (by decide)

/-- C10: `protowhistle_enabled` after a dispatch equals the record's
boolean flag exactly when the record is `CMD_PROTOWHISTLE` with
sub-value 0 or 2 (the value-2 "toggle" assigns the flag, it does not
invert), and is otherwise unchanged — in particular unchanged by every
record whose discriminant is not 8. -/
theorem protowhistle_flag_frame (cmdWLED : Nat) (connected : Bool)
    (st : DispatchState) (cmd : CommandPacket) :
    (executeMTHCommand cmdWLED connected st cmd).state.protowhistle_enabled =
      if cmd.command_type = 8 ∧ (cmd.value = 0 ∨ cmd.value = 2) then cmd.bool_value
      else st.protowhistle_enabled := by
  rw [executeMTHCommand_state]
  by_cases c7 : cmd.command_type = 7
  · rw [ds7 _ _ _ c7]; simp [c7]
  by_cases c1 : cmd.command_type = 1
  · rw [ds1 _ _ _ c1]; simp [c1]
  by_cases c2 : cmd.command_type = 2
  · rw [ds2 _ _ _ c2]; simp [c2]
  by_cases c3 : cmd.command_type = 3
  · rw [ds3 _ _ _ c3]; simp [c3]
  by_cases c4 : cmd.command_type = 4
  · cases hp : st.protowhistle_enabled
    · rw [ds4off _ _ _ c4 hp]; simp [c4, hp]
    · rw [ds4on _ _ _ c4 hp]; simp [c4, hp]
  by_cases c8 : cmd.command_type = 8
  · by_cases cv0 : cmd.value = 0
    · rw [ds8v0 _ _ _ c8 cv0]
      cases hb : cmd.bool_value <;> simp [c8, cv0]
    by_cases cv1 : cmd.value = 1
    · cases hp : st.protowhistle_enabled
      · rw [ds8v1off _ _ _ c8 cv1 hp]; simp [c8, cv1, hp]
      · rw [ds8v1on _ _ _ c8 cv1 hp]; simp [c8, cv1, hp]
    by_cases cv2 : cmd.value = 2
    · rw [ds8v2 _ _ _ c8 cv0 cv2]
      cases hb : cmd.bool_value <;> simp [c8, cv2]
    by_cases cr : 10 ≤ cmd.value ∧ cmd.value ≤ 13
    · rw [ds8pitch _ _ _ c8 cv0 cv1 cv2 cr]; simp [c8, cv0, cv2]
    · rw [ds8other _ _ _ c8 cv0 cv1 cv2 cr]; simp [c8, cv0, cv2]
  by_cases cw : cmd.command_type = cmdWLED
  · rw [dsWLED _ _ _ c7 c1 c2 c3 c4 c8 cw]
    cases hb : cmd.bool_value <;> simp [c8]
  by_cases c5 : cmd.command_type = 5
  · rw [ds5 _ _ _ c7 c1 c2 c3 c4 c8 cw c5]; simp [c8]
  by_cases c6 : cmd.command_type = 6
  · rw [ds6 _ _ _ c7 c1 c2 c3 c4 c8 cw c6]; simp [c8]
  rw [dsDefault _ _ _ c7 c1 c2 c3 c4 c8 cw c5 c6]
  simp [c8]

end LionelMTH
